import Mathlib

/-!
Verification of the SHTCx temperature/humidity sensor driver
(`esphome/components/shtcx/shtcx.cpp`).

The driver is embedded shallowly:
* machine integers (`uint8_t`, `uint16_t`) become `Nat` with explicit
  `% 256` / `% 65536` truncation where the C code truncates;
* the two-wire bus transport is an oracle passed in as arguments:
  a `Bool` for the success of each command write (the C
  `write_byte` result) and an `Option (List Nat)` for a bus read
  (`none` = transport-level error, `some buf` = the bytes received);
* the component's persistent fields (`type_`, `sensor_id_`, the
  failed flag set by `mark_failed`, and the warning flag driven by
  `status_set_warning` / `status_clear_warning`) form a state record,
  and each entry point (`setup`, `update`, the `set_timeout(50, ...)`
  completion lambda) is a function from the old state and the bus
  oracle to the new state plus its observable effects: the command
  codes written, the values published to the temperature and humidity
  sinks, and the number of delayed completions scheduled;
* a published `float` is `Option ℚ`, with `none` standing for the NAN
  "invalid / no reading" marker.  Every decoded value
  `175.0f * w / 65536.0f - 45.0f` and `100.0f * w / 65536.0f` with
  `w < 2 ^ 16` is exactly representable in single precision (the
  numerators stay below `2 ^ 24` and the divisors are powers of two),
  so the rational model loses nothing to rounding.
-/

namespace Shtcx

/-- Command codes from shtcx.cpp lines 10-14. -/
def SHTCX_COMMAND_SLEEP : Nat := 0xB098

def SHTCX_COMMAND_WAKEUP : Nat := 0x3517

def SHTCX_COMMAND_READ_ID_REGISTER : Nat := 0xEFC8

def SHTCX_COMMAND_SOFT_RESET : Nat := 0x805D

def SHTCX_COMMAND_POLLING_H : Nat := 0x7866

/-- Device variant enumeration (`SHTCXType` in shtcx.h). -/
inductive SHTCXType where
  | SHTCX_TYPE_SHTC3
  | SHTCX_TYPE_SHTC1
  | SHTCX_TYPE_UNKNOWN
  deriving DecidableEq, Repr

open SHTCXType

/-- One iteration of the `for (bit = 8; bit > 0; --bit)` loop body of
`sht_crc` (shtcx.cpp lines 123-129): `crc` is a `uint8_t`, so the
assignment `crc = (crc << 1) ^ 0x131` (resp. `crc = (crc << 1)`)
truncates the value modulo 256. -/
def crcStep (c : Nat) : Nat :=
  if c &&& 0x80 ≠ 0 then ((c <<< 1) ^^^ 0x131) % 256 else (c <<< 1) % 256

/-- The 8-iteration shift loop of `sht_crc`. -/
def crc8Rounds : Nat → Nat → Nat
  | 0, c => c
  | n + 1, c => crc8Rounds n (crcStep c)

/-- `sht_crc` (shtcx.cpp lines 118-141): start from `0xFF`, XOR in
`data1`, run 8 shift steps, XOR in `data2`, run 8 more shift steps. -/
def sht_crc (data1 data2 : Nat) : Nat :=
  crc8Rounds 8 (crc8Rounds 8 (0xFF ^^^ data1) ^^^ data2)

/-- One CRC step as the spec describes it: shift left by one within
8 bits, and XOR `0x31` into the result exactly when the shifted-out
bit (bit 7) was 1.  Written from the spec text, to be compared with
`crcStep`, which is written from the source. -/
def crcStepSpec (c : Nat) : Nat :=
  if c.testBit 7 then ((c <<< 1) % 256) ^^^ 0x31 else (c <<< 1) % 256

/-- The spec's CRC-8: polynomial 0x31, initial value 0xFF, each input
byte XORed in followed by 8 `crcStepSpec` steps. -/
def crc8SpecRounds : Nat → Nat → Nat
  | 0, c => c
  | n + 1, c => crc8SpecRounds n (crcStepSpec c)

/-- The CRC-8 of two bytes as described by the spec. -/
def crc8_spec (a b : Nat) : Nat :=
  crc8SpecRounds 8 (crc8SpecRounds 8 (0xFF ^^^ a) ^^^ b)

lemma crcStep_lt (c : Nat) : crcStep c < 256 := by
  unfold crcStep
  split <;> exact Nat.mod_lt _ (by norm_num)

set_option maxRecDepth 4096 in
lemma crcStep_eq_spec_fin : ∀ c : Fin 256, crcStep c.val = crcStepSpec c.val := by
  decide

lemma crcStep_eq_spec (c : Nat) (h : c < 256) : crcStep c = crcStepSpec c :=
  crcStep_eq_spec_fin ⟨c, h⟩

lemma crc8Rounds_eq_spec : ∀ (n c : Nat), c < 256 → crc8Rounds n c = crc8SpecRounds n c
  | 0, _, _ => rfl
  | n + 1, c, h => by
    show crc8Rounds n (crcStep c) = crc8SpecRounds n (crcStepSpec c)
    rw [← crcStep_eq_spec c h]
    exact crc8Rounds_eq_spec n (crcStep c) (crcStep_lt c)

lemma crc8Rounds_lt : ∀ (n c : Nat), c < 256 → crc8Rounds n c < 256
  | 0, _, h => h
  | n + 1, c, _ => crc8Rounds_lt n (crcStep c) (crcStep_lt c)

/-- C2: `sht_crc` computes the CRC-8 with polynomial 0x31 and initial
value 0xFF exactly as the spec describes it (XOR each byte in, then 8
shift-left steps with a conditional XOR of 0x31 when the shifted-out
bit was 1), and it matches the SHT-series datasheet test vector
`sht_crc(0xBE, 0xEF) = 0x92`. -/
theorem sht_crc_matches_spec (a b : Nat) (ha : a < 256) (hb : b < 256) :
    sht_crc a b = crc8_spec a b ∧ sht_crc 0xBE 0xEF = 0x92 := by
  constructor
  · have h1 : (0xFF ^^^ a) < 256 := Nat.xor_lt_two_pow (n := 8) (by norm_num) ha
    have h2 : crc8Rounds 8 (0xFF ^^^ a) < 256 := crc8Rounds_lt 8 _ h1
    have h3 : crc8Rounds 8 (0xFF ^^^ a) ^^^ b < 256 := Nat.xor_lt_two_pow (n := 8) h2 hb
    unfold sht_crc crc8_spec
    rw [crc8Rounds_eq_spec 8 _ h3, crc8Rounds_eq_spec 8 _ h1]
  · decide

/-- Witness for C2 at the datasheet vector bytes. -/
theorem sht_crc_matches_spec_witness :
    sht_crc 0xBE 0xEF = crc8_spec 0xBE 0xEF ∧ sht_crc 0xBE 0xEF = 0x92 :=
  sht_crc_matches_spec 0xBE 0xEF (by norm_num) (by norm_num)

/-- The `for (uint8_t i = 0; i < len; i++)` loop of
`SHTCXComponent::read_data_` (shtcx.cpp lines 151-159), starting at
byte offset `j = 3 * i`: validate each 3-byte group `(hi, lo, crc)`
against `sht_crc` and assemble the word `(hi << 8) | lo`; the first
CRC mismatch aborts the whole read (`return false`). -/
def readLoop (buf : List Nat) : Nat → Nat → Option (List Nat)
  | 0, _ => some []
  | len + 1, j =>
    if sht_crc (buf.getD j 0) (buf.getD (j + 1) 0) = buf.getD (j + 2) 0 then
      Option.map (fun ws => (((buf.getD j 0) <<< 8) ||| buf.getD (j + 1) 0) :: ws)
        (readLoop buf len (j + 3))
    else none

/-- `SHTCXComponent::read_data_` (shtcx.cpp lines 143-162).  The bus
transfer of `3 * len` bytes is the oracle `busRead`: `none` models
`this->read(...) != i2c::ERROR_OK` (the function returns `false`
before looking at any byte), `some buf` models a successful transfer
of the byte list `buf`. -/
def read_data_ (busRead : Option (List Nat)) (len : Nat) : Option (List Nat) :=
  match busRead with
  | none => none
  | some buf => readLoop buf len 0

/-- Closed form of `readLoop`: it succeeds exactly when every 3-byte
group passes the CRC check, and then returns the assembled words in
order. -/
lemma readLoop_eq (buf : List Nat) (len : Nat) : ∀ j : Nat,
    readLoop buf len j =
      if ∀ i, i < len → sht_crc (buf.getD (j + 3 * i) 0) (buf.getD (j + 3 * i + 1) 0)
          = buf.getD (j + 3 * i + 2) 0 then
        some ((List.range len).map fun i =>
          ((buf.getD (j + 3 * i) 0) <<< 8) ||| buf.getD (j + 3 * i + 1) 0)
      else none := by
  induction len with
  | zero => intro j; simp [readLoop]
  | succ len ih =>
    intro j
    rw [readLoop, ih (j + 3)]
    by_cases hc : sht_crc (buf.getD j 0) (buf.getD (j + 1) 0) = buf.getD (j + 2) 0
    · rw [if_pos hc]
      by_cases hall : ∀ i, i < len →
          sht_crc (buf.getD (j + 3 + 3 * i) 0) (buf.getD (j + 3 + 3 * i + 1) 0)
            = buf.getD (j + 3 + 3 * i + 2) 0
      · rw [if_pos hall, if_pos ?side]
        case side =>
          intro i hi
          cases i with
          | zero => simpa using hc
          | succ i0 =>
            have h := hall i0 (by omega)
            have e : j + 3 + 3 * i0 = j + 3 * (i0 + 1) := by ring
            rw [e] at h
            exact h
        rw [Option.map_some']
        congr 1
        rw [List.range_succ_eq_map, List.map_cons, List.map_map]
        have ehead : j + 3 * 0 = j := by ring
        rw [ehead]
        refine congrArg (List.cons _) ?_
        refine List.map_congr_left fun a ha => ?_
        simp only [Function.comp_apply, Nat.succ_eq_add_one]
        have e : j + 3 * (a + 1) = j + 3 + 3 * a := by ring
        rw [e]
      · rw [if_neg hall, if_neg ?neg, Option.map_none']
        case neg =>
          intro hcontra
          apply hall
          intro i hi
          have h := hcontra (i + 1) (by omega)
          have e : j + 3 * (i + 1) = j + 3 + 3 * i := by ring
          rw [e] at h
          exact h
    · rw [if_neg hc, if_neg ?neg2]
      case neg2 =>
        intro hcontra
        apply hc
        have h := hcontra 0 (by omega)
        simpa using h

/-- C3: for a `3 * n`-byte frame, `read_data_` succeeds exactly when
every 3-byte group `(hi, lo, crc)` satisfies `sht_crc hi lo = crc`
(so one bad group anywhere fails the whole read, with no partial
success in the return value), on success the i-th word is
`(hi <<< 8) ||| lo`, and a transport-level read error fails as well. -/
theorem read_data_frame_validation (n : Nat) (buf : List Nat) (h : buf.length = 3 * n) :
    ((read_data_ (some buf) n).isSome ↔ ∀ i, i < n →
        sht_crc (buf.getD (3 * i) 0) (buf.getD (3 * i + 1) 0) = buf.getD (3 * i + 2) 0)
  ∧ (∀ ws, read_data_ (some buf) n = some ws → ws.length = n ∧ ∀ i, i < n →
        ws.getD i 0 = ((buf.getD (3 * i) 0) <<< 8) ||| buf.getD (3 * i + 1) 0)
  ∧ read_data_ none n = none := by
  have hr : read_data_ (some buf) n = readLoop buf n 0 := rfl
  rw [hr, readLoop_eq buf n 0]
  simp only [Nat.zero_add]
  by_cases hall : ∀ i, i < n →
      sht_crc (buf.getD (3 * i) 0) (buf.getD (3 * i + 1) 0) = buf.getD (3 * i + 2) 0
  · rw [if_pos hall]
    refine ⟨iff_of_true (by simp) hall, ?_, rfl⟩
    intro ws hws
    injection hws with hws
    subst hws
    constructor
    · simp
    · intro i hi
      have hlen : i < (List.map (fun i =>
          ((buf.getD (3 * i) 0) <<< 8) ||| buf.getD (3 * i + 1) 0) (List.range n)).length := by
        simpa using hi
      rw [List.getD_eq_getElem _ _ hlen]
      simp
  · rw [if_neg hall]
    refine ⟨iff_of_false (by simp) hall, ?_, rfl⟩
    intro ws hws
    simp at hws

/-- Witness for C3 on the 3-byte frame `BE EF 92`, whose single group
carries the datasheet CRC. -/
theorem read_data_frame_validation_witness :
    ([0xBE, 0xEF, 0x92] : List Nat).length = 3 * 1 ∧
      (read_data_ (some [0xBE, 0xEF, 0x92]) 1).isSome := by
  refine ⟨by decide, ?_⟩
  exact (read_data_frame_validation 1 [0xBE, 0xEF, 0x92] (by decide)).1.mpr (by decide)

/-- The persistent fields of `SHTCXComponent` that the claims touch:
the device variant `type_` and raw id `sensor_id_` (shtcx.h), the
permanent-failure flag driven by `mark_failed`, and the communication
warning flag driven by `status_set_warning` / `status_clear_warning`
(both inherited from the framework's `Component`). -/
structure ComponentState where
  type_ : SHTCXType
  sensor_id_ : Nat
  failed : Bool
  warning : Bool
  deriving DecidableEq, Repr

/-- Observable outcome of one entry point of the driver: the new
component state, the 16-bit command codes written to the bus in
order, the values published to each sink (`none` = the NAN marker,
an empty list = nothing published, e.g. an absent sink), and the
number of delayed completions registered via `set_timeout`. -/
structure CycleResult where
  state : ComponentState
  commands : List Nat
  temp_published : List (Option ℚ)
  hum_published : List (Option ℚ)
  completions : Nat
  deriving DecidableEq, Repr

/-- Result of `setup`: the new component state and the command codes
written. -/
structure SetupResult where
  state : ComponentState
  commands : List Nat
  deriving DecidableEq, Repr

/-- The device-identity decode of `SHTCXComponent::setup`
(shtcx.cpp lines 47-55), a pure function of the 16-bit ID register
value (`if ((id & 0x3F) == 0x07)` then bit `0x800` picks SHTC3 over
SHTC1, else unknown). -/
def decode_type (device_id_register : Nat) : SHTCXType :=
  if device_id_register &&& 0x3F = 0x07 then
    if device_id_register &&& 0x800 ≠ 0 then SHTCX_TYPE_SHTC3 else SHTCX_TYPE_SHTC1
  else SHTCX_TYPE_UNKNOWN

/-- `SHTCXComponent::setup` (shtcx.cpp lines 27-57): `wake_up()` and
`soft_reset()` (void helpers that discard their `write_command_`
results `wakeOk` / `resetOk`), then the ReadID command write
(`idCmdOk`); failure of that write or of the one-word ID read
(`busRead` is the transport result) calls `mark_failed` and returns
early; on success the word is stored in `sensor_id_` and decoded into
`type_`. -/
def setup (s : ComponentState) (wakeOk resetOk idCmdOk : Bool)
    (busRead : Option (List Nat)) : SetupResult :=
  let cmds := [SHTCX_COMMAND_WAKEUP, SHTCX_COMMAND_SOFT_RESET,
    SHTCX_COMMAND_READ_ID_REGISTER]
  if idCmdOk = false then
    { state := { s with failed := true }, commands := cmds }
  else
    match read_data_ busRead 1 with
    | none => { state := { s with failed := true }, commands := cmds }
    | some ws =>
      let device_id_register := ws.getD 0 0
      { state := { s with sensor_id_ := device_id_register,
                          type_ := decode_type device_id_register },
        commands := cmds }

/-- `SHTCXComponent::update` (shtcx.cpp lines 71-88) up to and
including the `set_timeout(50, ...)` registration, whose body is
modelled separately as `complete_measurement`.  `hasTemp` / `hasHum`
model the non-nullness of the sink pointers; `resetOk` / `wakeOk` /
`pollOk` are the transport results of the soft-reset, wake-up and
PollHighPrecision command writes, the first two being discarded by
the void helpers exactly as in the source.  The soft reset is sent
only when the warning flag is set, the wake-up only for non-SHTC1
devices; a failed poll write publishes NAN to every present sink,
sets the warning and returns without registering a completion. -/
def update (s : ComponentState) (hasTemp hasHum : Bool)
    (resetOk wakeOk pollOk : Bool) : CycleResult :=
  let cmds1 : List Nat := if s.warning then [SHTCX_COMMAND_SOFT_RESET] else []
  let cmds2 : List Nat :=
    if s.type_ ≠ SHTCX_TYPE_SHTC1 then cmds1 ++ [SHTCX_COMMAND_WAKEUP] else cmds1
  let cmds3 := cmds2 ++ [SHTCX_COMMAND_POLLING_H]
  if pollOk = false then
    { state := { s with warning := true },
      commands := cmds3,
      temp_published := if hasTemp then [none] else [],
      hum_published := if hasHum then [none] else [],
      completions := 0 }
  else
    { state := s, commands := cmds3,
      temp_published := [], hum_published := [], completions := 1 }

/-- The `set_timeout(50, ...)` lambda of `SHTCXComponent::update`
(shtcx.cpp lines 89-110): `temperature` and `humidity` start as NAN
(`none`); a failed 2-word read (`busRead` is the transport result of
the 6-byte transfer) calls `status_set_warning`, a successful one
decodes `175.0f * w0 / 65536.0f - 45.0f` and `100.0f * w1 / 65536.0f`;
then both values are published to the sinks that are present,
`status_clear_warning` runs unconditionally (line 106), and a
non-SHTC1 device is sent the Sleep command, whose write result
`sleepOk` the void helper discards. -/
def complete_measurement (s : ComponentState) (hasTemp hasHum : Bool)
    (busRead : Option (List Nat)) (sleepOk : Bool) : CycleResult :=
  let r := read_data_ busRead 2
  let temperature : Option ℚ :=
    match r with
    | none => none
    | some ws => some (175 * (ws.getD 0 0 : ℚ) / 65536 - 45)
  let humidity : Option ℚ :=
    match r with
    | none => none
    | some ws => some (100 * (ws.getD 1 0 : ℚ) / 65536)
  let s1 := if r.isSome then s else { s with warning := true }
  let s2 := { s1 with warning := false }
  { state := s2,
    commands := if s.type_ ≠ SHTCX_TYPE_SHTC1 then [SHTCX_COMMAND_SLEEP] else [],
    temp_published := if hasTemp then [temperature] else [],
    hum_published := if hasHum then [humidity] else [],
    completions := 0 }


/-- C1 evaluation: when the poll succeeded but the delayed 2-word read
fails, the completion publishes NAN to both sinks as claimed, but the
unconditional `status_clear_warning()` at shtcx.cpp line 106 runs
after the `status_set_warning()` of the failure branch, so the cycle
ends with the warning flag CLEAR, contradicting the claim that the
next cycle observes the warning state. -/
theorem complete_measurement_read_failure_ends_warning_clear :
    ((complete_measurement ⟨SHTCX_TYPE_SHTC3, 0x0887, false, false⟩ true true
        none true).temp_published = [none])
  ∧ ((complete_measurement ⟨SHTCX_TYPE_SHTC3, 0x0887, false, false⟩ true true
        none true).hum_published = [none])
  ∧ ((complete_measurement ⟨SHTCX_TYPE_SHTC3, 0x0887, false, false⟩ true true
        none true).state.warning = false) :=
  ⟨rfl, rfl, rfl⟩

/-- C4: device-identity decoding is a pure function of the 16-bit ID
register value: when the low 6 bits equal 0x07 the variant is SHTC3
exactly when bit 11 is set and SHTC1 otherwise, and any other low-6-bit
pattern decodes to Unknown. -/
theorem decode_type_correct (v : Nat) (hv : v < 65536) :
    (v % 64 = 7 →
      decode_type v = (if v.testBit 11 then SHTCX_TYPE_SHTC3 else SHTCX_TYPE_SHTC1))
  ∧ (v % 64 ≠ 7 → decode_type v = SHTCX_TYPE_UNKNOWN) := by
  have hand : v &&& 0x3F = v % 64 := by
    have h6 := Nat.and_pow_two_sub_one_eq_mod v 6
    norm_num at h6
    exact h6
  have hbit : v &&& 0x800 = (v.testBit 11).toNat * 2048 := by
    have h11 := Nat.and_two_pow v 11
    norm_num at h11
    exact h11
  constructor
  · intro h7
    unfold decode_type
    rw [hand, if_pos h7, hbit]
    by_cases hb : v.testBit 11
    · simp [hb]
    · simp [hb]
  · intro h7
    unfold decode_type
    rw [hand, if_neg h7]

/-- Witness for C4 at the SHTC3 id register value 0x0887. -/
theorem decode_type_correct_witness :
    0x0887 % 64 = 7 ∧ decode_type 0x0887 = SHTCX_TYPE_SHTC3 := by
  refine ⟨by norm_num, ?_⟩
  have h := (decode_type_correct 0x0887 (by norm_num)).1 (by norm_num)
  rw [h]
  decide

/-- C5: a failed PollHighPrecision write makes `update` publish NAN to
every present sink, set the warning, and return without registering a
completion; and the number of completions registered is one exactly
when the poll write succeeds. -/
theorem update_poll_failure (s : ComponentState)
    (hasTemp hasHum resetOk wakeOk pollOk : Bool) (hp : pollOk = false) :
    ((update s hasTemp hasHum resetOk wakeOk pollOk).temp_published
        = (if hasTemp then [none] else []))
  ∧ ((update s hasTemp hasHum resetOk wakeOk pollOk).hum_published
        = (if hasHum then [none] else []))
  ∧ (update s hasTemp hasHum resetOk wakeOk pollOk).state.warning = true
  ∧ (update s hasTemp hasHum resetOk wakeOk pollOk).completions = 0
  ∧ (∀ p : Bool, (update s hasTemp hasHum resetOk wakeOk p).completions
        = if p then 1 else 0) := by
  subst hp
  refine ⟨rfl, rfl, rfl, rfl, ?_⟩
  intro p
  cases p <;> rfl

/-- Witness for C5: a concrete failed poll on an SHTC3 with both sinks
present. -/
theorem update_poll_failure_witness :
    ((update ⟨SHTCX_TYPE_SHTC3, 0x0887, false, false⟩ true true true true
        false).state.warning = true)
  ∧ ((update ⟨SHTCX_TYPE_SHTC3, 0x0887, false, false⟩ true true true true
        false).completions = 0) :=
  ⟨(update_poll_failure ⟨SHTCX_TYPE_SHTC3, 0x0887, false, false⟩ true true true true
      false rfl).2.2.1,
   (update_poll_failure ⟨SHTCX_TYPE_SHTC3, 0x0887, false, false⟩ true true true true
      false rfl).2.2.2.1⟩

/-- C6: when a cycle leaves the warning flag set (as a failed poll
does), the next `update` writes SoftReset first, before the optional
wake-up and the poll command, and its whole outcome is independent of
the soft-reset write result, which the code discards. -/
theorem update_warning_soft_resets_first (s : ComponentState) (hw : s.warning = true)
    (hasTemp hasHum resetOk resetOk2 wakeOk pollOk : Bool) :
    ((update s hasTemp hasHum resetOk wakeOk pollOk).commands
        = SHTCX_COMMAND_SOFT_RESET ::
            ((if s.type_ ≠ SHTCX_TYPE_SHTC1 then [SHTCX_COMMAND_WAKEUP] else [])
              ++ [SHTCX_COMMAND_POLLING_H]))
  ∧ update s hasTemp hasHum resetOk wakeOk pollOk
      = update s hasTemp hasHum resetOk2 wakeOk pollOk := by
  constructor
  · unfold update
    by_cases ht : s.type_ ≠ SHTCX_TYPE_SHTC1 <;> by_cases hpo : pollOk = false <;>
      simp [hw, ht, hpo]
  · rfl

/-- Witness for C6: a state left by a failed poll cycle (warning set). -/
theorem update_warning_soft_resets_first_witness :
    (update ⟨SHTCX_TYPE_SHTC3, 0x0887, false, true⟩ true true false true
        true).commands
      = SHTCX_COMMAND_SOFT_RESET :: [SHTCX_COMMAND_WAKEUP, SHTCX_COMMAND_POLLING_H] := by
  have h := (update_warning_soft_resets_first ⟨SHTCX_TYPE_SHTC3, 0x0887, false, true⟩
      rfl true true false true true true).1
  rw [h]
  decide

/-- C7: on a successful 2-word read the completion publishes
temperature `175 * w0 / 65536 - 45` and humidity `100 * w1 / 65536`
(every such value is exactly representable in single precision, so
the rational statement is exact), with the spec sample points: raw
word 0x0000 decodes to -45 degrees and 0 percent and raw word 0x8000
to 42.5 degrees and 50 percent. -/
theorem complete_measurement_decode (s : ComponentState) (busRead : Option (List Nat))
    (sleepOk : Bool) (ws : List Nat) (h : read_data_ busRead 2 = some ws) :
    ((complete_measurement s true true busRead sleepOk).temp_published
        = [some (175 * (ws.getD 0 0 : ℚ) / 65536 - 45)])
  ∧ ((complete_measurement s true true busRead sleepOk).hum_published
        = [some (100 * (ws.getD 1 0 : ℚ) / 65536)])
  ∧ (ws.getD 0 0 = 0x0000 →
      (complete_measurement s true true busRead sleepOk).temp_published = [some (-45)])
  ∧ (ws.getD 1 0 = 0x0000 →
      (complete_measurement s true true busRead sleepOk).hum_published = [some 0])
  ∧ (ws.getD 0 0 = 0x8000 →
      (complete_measurement s true true busRead sleepOk).temp_published = [some (85 / 2)])
  ∧ (ws.getD 1 0 = 0x8000 →
      (complete_measurement s true true busRead sleepOk).hum_published = [some 50]) := by
  have h1 : (complete_measurement s true true busRead sleepOk).temp_published
      = [some (175 * (ws.getD 0 0 : ℚ) / 65536 - 45)] := by
    simp [complete_measurement, h]
  have h2 : (complete_measurement s true true busRead sleepOk).hum_published
      = [some (100 * (ws.getD 1 0 : ℚ) / 65536)] := by
    simp [complete_measurement, h]
  refine ⟨h1, h2, ?_, ?_, ?_, ?_⟩
  · intro h0; rw [h1, h0]; norm_num
  · intro h0; rw [h2, h0]; norm_num
  · intro h0; rw [h1, h0]; norm_num
  · intro h0; rw [h2, h0]; norm_num

/-- Witness for C7 on the frame `80 00 A2 80 00 A2` (both raw words
0x8000, each group carrying its correct CRC). -/
theorem complete_measurement_decode_witness :
    ((complete_measurement ⟨SHTCX_TYPE_SHTC3, 0x0887, false, false⟩ true true
        (some [0x80, 0x00, 0xA2, 0x80, 0x00, 0xA2]) true).temp_published
      = [some (85 / 2)])
  ∧ ((complete_measurement ⟨SHTCX_TYPE_SHTC3, 0x0887, false, false⟩ true true
        (some [0x80, 0x00, 0xA2, 0x80, 0x00, 0xA2]) true).hum_published
      = [some 50]) := by
  have h := complete_measurement_decode ⟨SHTCX_TYPE_SHTC3, 0x0887, false, false⟩
      (some [0x80, 0x00, 0xA2, 0x80, 0x00, 0xA2]) true [0x8000, 0x8000] (by decide)
  exact ⟨h.2.2.2.2.1 (by decide), h.2.2.2.2.2 (by decide)⟩

/-- C8: a failed ReadID command write or a failed one-word ID read
during setup marks the component permanently failed and aborts setup
without storing a variant or a sensor id and without retrying (the
command trace stays the single wake / reset / ReadID sequence), while
neither `update` nor the measurement completion ever touches the
failed flag. -/
theorem setup_failure_fatal (s : ComponentState)
    (wakeOk resetOk idCmdOk : Bool) (busRead : Option (List Nat))
    (hasTemp hasHum resetOk2 wakeOk2 pollOk sleepOk : Bool)
    (busRead2 : Option (List Nat))
    (hfail : idCmdOk = false ∨ read_data_ busRead 1 = none) :
    (setup s wakeOk resetOk idCmdOk busRead).state.failed = true
  ∧ (setup s wakeOk resetOk idCmdOk busRead).state.type_ = s.type_
  ∧ (setup s wakeOk resetOk idCmdOk busRead).state.sensor_id_ = s.sensor_id_
  ∧ ((setup s wakeOk resetOk idCmdOk busRead).commands
      = [SHTCX_COMMAND_WAKEUP, SHTCX_COMMAND_SOFT_RESET, SHTCX_COMMAND_READ_ID_REGISTER])
  ∧ (update s hasTemp hasHum resetOk2 wakeOk2 pollOk).state.failed = s.failed
  ∧ (complete_measurement s hasTemp hasHum busRead2 sleepOk).state.failed = s.failed := by
  have hupd : (update s hasTemp hasHum resetOk2 wakeOk2 pollOk).state.failed = s.failed := by
    unfold update
    by_cases hpo : pollOk = false <;> simp [hpo]
  have hcomp : (complete_measurement s hasTemp hasHum busRead2 sleepOk).state.failed
      = s.failed := by
    unfold complete_measurement
    cases hr : read_data_ busRead2 2 <;> simp [hr]
  rcases hfail with hfail | hfail
  · subst hfail
    exact ⟨rfl, rfl, rfl, rfl, hupd, hcomp⟩
  · unfold setup
    by_cases hc : idCmdOk = false
    · rw [if_pos hc]
      exact ⟨rfl, rfl, rfl, rfl, hupd, hcomp⟩
    · rw [if_neg hc, hfail]
      exact ⟨rfl, rfl, rfl, rfl, hupd, hcomp⟩

/-- Witness for C8: a concrete setup whose ReadID write fails. -/
theorem setup_failure_fatal_witness :
    ((setup ⟨SHTCX_TYPE_UNKNOWN, 0, false, false⟩ true true false none).state.failed = true)
  ∧ ((setup ⟨SHTCX_TYPE_UNKNOWN, 0, false, false⟩ true true false none).state.type_
      = SHTCX_TYPE_UNKNOWN) :=
  ⟨(setup_failure_fatal ⟨SHTCX_TYPE_UNKNOWN, 0, false, false⟩ true true false none
      true true true true true true none (Or.inl rfl)).1,
   (setup_failure_fatal ⟨SHTCX_TYPE_UNKNOWN, 0, false, false⟩ true true false none
      true true true true true true none (Or.inl rfl)).2.1⟩

/-- C9: neither `update` nor the measurement completion modifies
`type_` or `sensor_id_`, and each of them returns the input state
unchanged except possibly for the warning flag, which is therefore
the only cross-cycle state of a measurement cycle. -/
theorem cycle_preserves_identity (s : ComponentState) (hasTemp hasHum : Bool)
    (resetOk wakeOk pollOk sleepOk : Bool) (busRead : Option (List Nat)) :
    ((update s hasTemp hasHum resetOk wakeOk pollOk).state.type_ = s.type_)
  ∧ ((update s hasTemp hasHum resetOk wakeOk pollOk).state.sensor_id_ = s.sensor_id_)
  ∧ ((complete_measurement s hasTemp hasHum busRead sleepOk).state.type_ = s.type_)
  ∧ ((complete_measurement s hasTemp hasHum busRead sleepOk).state.sensor_id_
      = s.sensor_id_)
  ∧ ((update s hasTemp hasHum resetOk wakeOk pollOk).state
      = { s with warning := (update s hasTemp hasHum resetOk wakeOk pollOk).state.warning })
  ∧ ((complete_measurement s hasTemp hasHum busRead sleepOk).state
      = { s with warning :=
            (complete_measurement s hasTemp hasHum busRead sleepOk).state.warning }) := by
  have hu : (update s hasTemp hasHum resetOk wakeOk pollOk).state
      = { s with warning := (update s hasTemp hasHum resetOk wakeOk pollOk).state.warning } := by
    unfold update
    by_cases hpo : pollOk = false <;> simp [hpo]
  have hc : (complete_measurement s hasTemp hasHum busRead sleepOk).state
      = { s with warning :=
            (complete_measurement s hasTemp hasHum busRead sleepOk).state.warning } := by
    unfold complete_measurement
    cases hr : read_data_ busRead 2 <;> simp [hr]
  refine ⟨?_, ?_, ?_, ?_, hu, hc⟩
  · rw [hu]
  · rw [hu]
  · rw [hc]
  · rw [hc]

/-- C10: the wake-up and soft-reset write results during setup are
discarded: setup's outcome does not depend on them and setup always
proceeds to the ReadID command; starting from an unfailed component,
the permanently-failed state arises exactly when the ReadID write or
the subsequent one-word read fails. -/
theorem setup_ignores_wake_and_reset_results (s : ComponentState) (hs : s.failed = false)
    (wakeOk resetOk wakeOk2 resetOk2 idCmdOk : Bool) (busRead : Option (List Nat)) :
    (setup s wakeOk resetOk idCmdOk busRead = setup s wakeOk2 resetOk2 idCmdOk busRead)
  ∧ ((setup s wakeOk resetOk idCmdOk busRead).commands
      = [SHTCX_COMMAND_WAKEUP, SHTCX_COMMAND_SOFT_RESET, SHTCX_COMMAND_READ_ID_REGISTER])
  ∧ ((setup s wakeOk resetOk idCmdOk busRead).state.failed = true ↔
      (idCmdOk = false ∨ read_data_ busRead 1 = none)) := by
  refine ⟨rfl, ?_, ?_⟩
  · unfold setup
    by_cases hc : idCmdOk = false
    · rw [if_pos hc]
    · rw [if_neg hc]
      cases hr : read_data_ busRead 1 <;> rfl
  · unfold setup
    by_cases hc : idCmdOk = false
    · rw [if_pos hc]
      simp [hc]
    · rw [if_neg hc]
      cases hr : read_data_ busRead 1 with
      | none => simp [hc, hr]
      | some ws => simp [hc, hr, hs]

/-- Witness for C10: an unfailed component whose wake and reset write
results differ but whose setup outcome is identical. -/
theorem setup_ignores_wake_and_reset_results_witness :
    setup ⟨SHTCX_TYPE_UNKNOWN, 0, false, false⟩ false false true
        (some [0x08, 0x87, 0x20])
      = setup ⟨SHTCX_TYPE_UNKNOWN, 0, false, false⟩ true true true
        (some [0x08, 0x87, 0x20]) :=
  (setup_ignores_wake_and_reset_results ⟨SHTCX_TYPE_UNKNOWN, 0, false, false⟩ rfl
      false false true true true (some [0x08, 0x87, 0x20])).1
